import Mathlib

/-!
Verification of the CLIP MCP proxy (samteezy/clip).

The repository ships two source files: `src/cli.ts` (the CLI entry point
followed by the unit tests of `ToolConfigResolver`) and
`src/utils/glob.ts` (the glob matcher).  The `ToolConfigResolver`, cache,
retry-escalation tracker and call pipeline are exercised by the tests but
their implementations are not in the source tree; those parts are modelled
from the specification, faithful to the behaviour the in-tree tests pin
down.  The CLI exit-code logic and the glob matcher are embedded directly
from the source.
-/

/-- A JSON value as it appears in tool arguments and `parameterOverrides`
(kept flat: the claims never inspect nested structure). -/
inductive JsonVal where
  | null
  | bool (b : Bool)
  | num (n : Int)
  | str (s : String)
deriving DecidableEq, Repr

/-- `llmFallbackThreshold ∈ {low, medium, high}` from the masking policy. -/
inductive MaskThreshold where
  | low
  | medium
  | high
deriving DecidableEq, Repr

/-- Fully resolved compression policy (spec §3, CompressionPolicy). -/
structure ResolvedCompressionPolicy where
  enabled : Bool
  tokenThreshold : Nat
  maxOutputTokens : Nat
  customInstructions : Option String
  goalAware : Bool
deriving DecidableEq, Repr

/-- One configuration layer of the compression policy: every field
optional, absent = inherit (spec §3, ToolConfig / defaults). -/
structure CompressionPolicyLayer where
  enabled : Option Bool := none
  tokenThreshold : Option Nat := none
  maxOutputTokens : Option Nat := none
  customInstructions : Option String := none
  goalAware : Option Bool := none
deriving DecidableEq, Repr

/-- Fully resolved masking policy (spec §3, MaskingPolicy). -/
structure ResolvedMaskingPolicy where
  enabled : Bool
  piiTypes : List String
  llmFallback : Bool
  llmFallbackThreshold : MaskThreshold
deriving DecidableEq, Repr

/-- One configuration layer of the masking policy, all fields optional. -/
structure MaskingPolicyLayer where
  enabled : Option Bool := none
  piiTypes : Option (List String) := none
  llmFallback : Option Bool := none
  llmFallbackThreshold : Option MaskThreshold := none
deriving DecidableEq, Repr

/-- Fully resolved cache policy (spec §3, CachePolicy). -/
structure ResolvedCachePolicy where
  enabled : Bool
  ttlSeconds : Nat
deriving DecidableEq, Repr

/-- One configuration layer of the cache policy, all fields optional. -/
structure CachePolicyLayer where
  enabled : Option Bool := none
  ttlSeconds : Option Nat := none
deriving DecidableEq, Repr

/-- A `defaults` block (global or per upstream) holding optional
compression/masking/cache sub-records (spec §3, UpstreamConfig). -/
structure PolicyDefaults where
  compression : Option CompressionPolicyLayer := none
  masking : Option MaskingPolicyLayer := none
  cache : Option CachePolicyLayer := none
deriving DecidableEq, Repr

/-- Per-tool configuration (spec §3, ToolConfig): all fields optional,
absent = inherit. -/
structure ToolConfig where
  hidden : Option Bool := none
  overwriteDescription : Option String := none
  hideParameters : Option (List String) := none
  parameterOverrides : Option (List (String × JsonVal)) := none
  compression : Option CompressionPolicyLayer := none
  masking : Option MaskingPolicyLayer := none
  cache : Option CachePolicyLayer := none
deriving DecidableEq, Repr

/-- Per-upstream configuration (spec §3, UpstreamConfig); transport and
command are irrelevant to the claims and omitted. -/
structure UpstreamConfig where
  id : String
  defaults : Option PolicyDefaults := none
  tools : List (String × ToolConfig) := []
deriving DecidableEq, Repr

/-- Global retry-escalation configuration (spec §3, RetryEscalation).
`tokenMultiplier` is a float in the source; modelled as a rational.
`cap` is the configured maximum of the escalation factor (spec §4.F). -/
structure RetryEscalationConfig where
  enabled : Bool
  windowSeconds : Nat
  tokenMultiplier : ℚ
  cap : ℚ
deriving DecidableEq, Repr

/-- Top-level configuration (spec §6): upstreams, global `defaults`,
and the global-only compression fields (`retryEscalation`, `bypassEnabled`). -/
structure ClipConfig where
  upstreams : List UpstreamConfig := []
  defaults : PolicyDefaults := {}
  retryEscalation : Option RetryEscalationConfig := none
  bypassEnabled : Bool := false
deriving DecidableEq, Repr

/-- Modelled from the spec: built-in defaults of the compression policy
(spec §6 "All fields have documented defaults"; `goalAware` defaults to
false per scenario S1). -/
def defaultCompressionPolicy : ResolvedCompressionPolicy :=
  { enabled := false, tokenThreshold := 1000, maxOutputTokens := 500
    customInstructions := none, goalAware := false }

/-- Modelled from the spec: built-in defaults of the masking policy
(masking is disabled when nothing configures it, as the in-tree resolver
test "should return default when no masking configured" pins down). -/
def defaultMaskingPolicy : ResolvedMaskingPolicy :=
  { enabled := false, piiTypes := [], llmFallback := false
    llmFallbackThreshold := .low }

/-- Modelled from the spec: built-in defaults of the cache policy. -/
def defaultCachePolicy : ResolvedCachePolicy :=
  { enabled := false, ttlSeconds := 300 }

/-- Modelled from the spec: resolve a qualified tool name
`"<upstream_id>__<tool_name>"` (spec §3) to the upstream that owns it and
the tool's configuration record.  The implementation file
`tool-resolver.ts` is absent from src/; only its tests are in-tree. -/
def findUpstreamTool (cfg : ClipConfig) (qn : String) :
    Option (UpstreamConfig × ToolConfig) :=
  cfg.upstreams.findSome? fun u =>
    (u.tools.findSome? fun p =>
      if u.id ++ "__" ++ p.1 = qn then some p.2 else none).map fun tc => (u, tc)

/-- The per-tool configuration record of a qualified name, if configured. -/
def findToolConfig (cfg : ClipConfig) (qn : String) : Option ToolConfig :=
  (findUpstreamTool cfg qn).map (·.2)

/-- The `defaults` block of the upstream owning a qualified name. -/
def upstreamDefaultsFor (cfg : ClipConfig) (qn : String) : Option PolicyDefaults :=
  (findUpstreamTool cfg qn).bind (·.1.defaults)

/-- Modelled from the spec (§4.A merge algorithm): field-wise override,
tool layer > upstream defaults > global defaults > built-in default. -/
def resolveCompressionPolicy (cfg : ClipConfig) (qn : String) :
    ResolvedCompressionPolicy :=
  let tl := (findToolConfig cfg qn).bind (·.compression)
  let ul := (upstreamDefaultsFor cfg qn).bind (·.compression)
  let gl := cfg.defaults.compression
  { enabled := ((tl.bind (·.enabled)).or ((ul.bind (·.enabled)).or
      (gl.bind (·.enabled)))).getD defaultCompressionPolicy.enabled
    tokenThreshold := ((tl.bind (·.tokenThreshold)).or
      ((ul.bind (·.tokenThreshold)).or
        (gl.bind (·.tokenThreshold)))).getD defaultCompressionPolicy.tokenThreshold
    maxOutputTokens := ((tl.bind (·.maxOutputTokens)).or
      ((ul.bind (·.maxOutputTokens)).or
        (gl.bind (·.maxOutputTokens)))).getD defaultCompressionPolicy.maxOutputTokens
    customInstructions := (tl.bind (·.customInstructions)).or
      ((ul.bind (·.customInstructions)).or (gl.bind (·.customInstructions)))
    goalAware := ((tl.bind (·.goalAware)).or ((ul.bind (·.goalAware)).or
      (gl.bind (·.goalAware)))).getD defaultCompressionPolicy.goalAware }

/-- Modelled from the spec (§4.A): masking policy resolution; `piiTypes`
is replaced wholesale by the most specific layer that sets it. -/
def resolveMaskingPolicy (cfg : ClipConfig) (qn : String) :
    ResolvedMaskingPolicy :=
  let tl := (findToolConfig cfg qn).bind (·.masking)
  let ul := (upstreamDefaultsFor cfg qn).bind (·.masking)
  let gl := cfg.defaults.masking
  { enabled := ((tl.bind (·.enabled)).or ((ul.bind (·.enabled)).or
      (gl.bind (·.enabled)))).getD defaultMaskingPolicy.enabled
    piiTypes := ((tl.bind (·.piiTypes)).or ((ul.bind (·.piiTypes)).or
      (gl.bind (·.piiTypes)))).getD defaultMaskingPolicy.piiTypes
    llmFallback := ((tl.bind (·.llmFallback)).or ((ul.bind (·.llmFallback)).or
      (gl.bind (·.llmFallback)))).getD defaultMaskingPolicy.llmFallback
    llmFallbackThreshold := ((tl.bind (·.llmFallbackThreshold)).or
      ((ul.bind (·.llmFallbackThreshold)).or
        (gl.bind (·.llmFallbackThreshold)))).getD defaultMaskingPolicy.llmFallbackThreshold }

/-- Modelled from the spec (§4.A): cache policy resolution. -/
def resolveCachePolicy (cfg : ClipConfig) (qn : String) : ResolvedCachePolicy :=
  let tl := (findToolConfig cfg qn).bind (·.cache)
  let ul := (upstreamDefaultsFor cfg qn).bind (·.cache)
  let gl := cfg.defaults.cache
  { enabled := ((tl.bind (·.enabled)).or ((ul.bind (·.enabled)).or
      (gl.bind (·.enabled)))).getD defaultCachePolicy.enabled
    ttlSeconds := ((tl.bind (·.ttlSeconds)).or ((ul.bind (·.ttlSeconds)).or
      (gl.bind (·.ttlSeconds)))).getD defaultCachePolicy.ttlSeconds }

/-- Modelled from the spec (§4.A): `getHiddenParameters(qn) → list<string>`,
empty if none; empty for a nonexistent tool (pinned by the in-tree tests). -/
def getHiddenParameters (cfg : ClipConfig) (qn : String) : List String :=
  ((findToolConfig cfg qn).bind (·.hideParameters)).getD []

/-- Modelled from the spec (§4.A): `getParameterOverrides(qn) →
map<string,any>`, empty if none; empty for a nonexistent tool. -/
def getParameterOverrides (cfg : ClipConfig) (qn : String) :
    List (String × JsonVal) :=
  ((findToolConfig cfg qn).bind (·.parameterOverrides)).getD []

/-- Modelled from the spec (§4.A): `isToolHidden(qn) → bool`; false for a
nonexistent tool (pinned by the in-tree tests). -/
def isToolHidden (cfg : ClipConfig) (qn : String) : Bool :=
  ((findToolConfig cfg qn).bind (·.hidden)).getD false

/-- Modelled from the spec (§4.A): `getRetryEscalation() → RetryEscalation?`
— global only. -/
def getRetryEscalation (cfg : ClipConfig) : Option RetryEscalationConfig :=
  cfg.retryEscalation

/-- The value set by the most specific layer that sets the field, falling
back to the built-in default — the claim's own words (layers listed most
specific first). -/
def mostSpecific {α : Type} (layers : List (Option α)) (builtin : α) : α :=
  (layers.findSome? fun x => x).getD builtin

/-- The most specific layer that sets an optional field (no built-in). -/
def mostSpecificSet {α : Type} (layers : List (Option α)) : Option α :=
  layers.findSome? fun x => x

/-- Modelled from the spec (§4.G step 2): strip `hideParameters` from the
client arguments, then merge `parameterOverrides` with override winning.
The call pipeline's implementation is absent from src/. -/
def applyParameterPolicy (cfg : ClipConfig) (qn : String)
    (args : List (String × JsonVal)) : List (String × JsonVal) :=
  let hidden := getHiddenParameters cfg qn
  let ov := getParameterOverrides cfg qn
  let stripped := args.filter fun p =>
    !(hidden.contains p.1) && !((ov.map (·.1)).contains p.1)
  ov ++ stripped

/-- All qualified names advertised by the upstream registry: each upstream
id paired with the tool names its `tools/list` returned (spec §4.B). -/
def allAdvertised (adv : List (String × List String)) : List String :=
  (adv.map fun p => p.2.map fun t => p.1 ++ "__" ++ t).flatten

/-- Modelled from the spec (§4.B, §4.H): the unioned catalog, hidden tools
removed. -/
def listTools (cfg : ClipConfig) (adv : List (String × List String)) :
    List String :=
  (allAdvertised adv).filter fun qn => !(isToolHidden cfg qn)

/-- Outcome of dispatching a `tools/call` (spec §4.G step 1 and 2): either
the tool-not-found error or the argument map forwarded upstream. -/
inductive CallResult where
  | toolNotFound
  | forwarded (args : List (String × JsonVal))
deriving DecidableEq, Repr

/-- Modelled from the spec (§4.G steps 1–2): a call to an unknown or hidden
qualified name returns tool-not-found; otherwise the arguments are
forwarded after parameter policy. -/
def callTool (cfg : ClipConfig) (adv : List (String × List String))
    (qn : String) (args : List (String × JsonVal)) : CallResult :=
  if (allAdvertised adv).contains qn && !(isToolHidden cfg qn) then
    .forwarded (applyParameterPolicy cfg qn args)
  else
    .toolNotFound

/-- A cache entry (spec §3, CacheEntry): value, insertion time, ttl. -/
structure CacheEntry (α : Type) where
  value : α
  insertedAt : Nat
  ttl : Nat
deriving DecidableEq, Repr

/-- The response cache, keyed by the hash string (spec §4.C). -/
abbrev Cache (α : Type) : Type := List (String × CacheEntry α)

/-- Modelled from the spec (§4.C eviction, lazy on read): an entry whose
`insertedAt + ttl` has passed is deleted and treated as a miss; otherwise
its value is served.  Returns the looked-up value and the updated cache.
The cache implementation is absent from src/. -/
def cacheLookup {α : Type} (c : Cache α) (k : String) (now : Nat) :
    Option α × Cache α :=
  match c.lookup k with
  | none => (none, c)
  | some e =>
    if e.insertedAt + e.ttl < now then
      (none, c.filter fun p => p.1 != k)
    else
      (some e.value, c)

/-- Modelled from the spec (§4.C `getOrCompute`): on a miss the builder's
value is stored with `insertedAt := now` and returned (the sequential
skeleton; single-flight interleaving is outside this embedding). -/
def getOrCompute {α : Type} (c : Cache α) (k : String) (now ttl : Nat)
    (build : α) : α × Cache α :=
  match cacheLookup c k now with
  | (some v, c₂) => (v, c₂)
  | (none, c₂) => (build, (k, ⟨build, now, ttl⟩) :: c₂)

/-- One record of the retry-escalation tracker (spec §4.F). -/
structure EscalationEntry where
  count : Nat
  firstSeen : Nat
  lastSeen : Nat
deriving DecidableEq, Repr

/-- Modelled from the spec (§4.F): on each call, reset when no entry exists
or `now − firstSeen > windowSeconds` (factor 1), else increment the count
and use factor `min(tokenMultiplier^(count−1), cap)`.  The tracker's
implementation is absent from src/. -/
def escalationStep (rc : RetryEscalationConfig) (st : Option EscalationEntry)
    (now : Nat) : EscalationEntry × ℚ :=
  match st with
  | none => (⟨1, now, now⟩, 1)
  | some e =>
    if rc.windowSeconds < now - e.firstSeen then
      (⟨1, now, now⟩, 1)
    else
      (⟨e.count + 1, e.firstSeen, now⟩, min (rc.tokenMultiplier ^ e.count) rc.cap)

/-- Run the escalation tracker over a sequence of call times for one
`(qualified_tool, args_hash)` key, collecting the factor of each call. -/
def runEscalation (rc : RetryEscalationConfig) (st : Option EscalationEntry) :
    List Nat → List ℚ
  | [] => []
  | t :: ts =>
    let r := escalationStep rc st t
    r.2 :: runEscalation rc (some r.1) ts

/-- Modelled from the spec (§4.F, §4.G step 8): the escalation factor
multiplies `maxOutputTokens` only; `tokenThreshold` is passed through
untouched.  Returns (effective max output tokens, token threshold). -/
def applyEscalation (p : ResolvedCompressionPolicy) (factor : ℚ) : ℚ × Nat :=
  ((p.maxOutputTokens : ℚ) * factor, p.tokenThreshold)

/-- The terminal outcomes of the CLI process, one per `process.exit` site
in `src/cli.ts` (embedded from the source): `--help` (line 63), `--init`
(line 72), a configuration-load error (line 82), the SIGINT/SIGTERM
shutdown handler (line 92), a `proxy.start()` failure (line 103), and the
final `main().catch` fatal-error handler (line 108). -/
inductive CliOutcome where
  | helpRequested
  | initRequested
  | configError
  | signalShutdown
  | startError
  | fatalError
deriving DecidableEq, Repr

/-- The exit code `src/cli.ts` passes to `process.exit` at each terminal
outcome (embedded from the source lines cited on `CliOutcome`). -/
def cliExitCode : CliOutcome → Nat
  | .helpRequested => 0
  | .initRequested => 0
  | .configError => 1
  | .signalShutdown => 0
  | .startError => 1
  | .fatalError => 1

/-- One token of the anchored regular expression `matchesGlob` builds:
after escaping, every non-star pattern character is a literal and every
`*` is the `.*` fragment. -/
inductive GlobTok where
  | lit (c : Char)
  | dotStar
deriving DecidableEq, Repr

/-- The ECMAScript line terminators, which `.` in a JavaScript regular
expression without the `s` flag does not match. -/
def isLineTerminator (c : Char) : Bool :=
  c = '\n' || c = '\r' || c = Char.ofNat 0x2028 || c = Char.ofNat 0x2029

/-- Embedded from `src/utils/glob.ts` (`matchesGlob`): the first `replace`
backslash-escapes every regex metacharacter except `*` (making it a
literal) and the second turns every `*` into `.*`; tokenized, the
resulting regular expression is a literal for each non-star character and
`.*` for each star. -/
def compileGlob (p : List Char) : List GlobTok :=
  p.map fun c => if c = '*' then GlobTok.dotStar else GlobTok.lit c

/-- Backtracking loop of a `.*` fragment: try to match the continuation
`k` at the current suffix, else consume one non-line-terminator character
and retry (ECMAScript `.` without the `s` flag skips line terminators). -/
def starLoop (k : List Char → Bool) : List Char → Bool
  | [] => k []
  | x :: xs => k (x :: xs) || (!isLineTerminator x && starLoop k xs)

/-- Matching of the compiled tokens against the name with ECMAScript
semantics: the expression is anchored by `^`/`$` so the whole name must be
consumed, a literal consumes exactly its character, and `.*` consumes any
(possibly empty) sequence of non-line-terminator characters. -/
def rxMatch : List GlobTok → List Char → Bool
  | [] => fun s => s.isEmpty
  | .lit c :: ts => fun s =>
    match s with
    | [] => false
    | x :: xs => c == x && rxMatch ts xs
  | .dotStar :: ts => starLoop (rxMatch ts)

/-- Embedded from `src/utils/glob.ts`: `matchesGlob(name, pattern)` tests
the name against the anchored regular expression compiled from the
pattern. -/
def matchesGlob (name pattern : String) : Bool :=
  rxMatch (compileGlob pattern.data) name.data

/-- Loop of a `*` under the claim's reading: consume any character. -/
def anyCharLoop (k : List Char → Bool) : List Char → Bool
  | [] => k []
  | x :: xs => k (x :: xs) || anyCharLoop k xs

/-- The claim's glob semantics, read off its words: the whole name is
matched with each `*` standing for any (possibly empty) sequence of
characters and every other character standing for itself. -/
def globSpec : List Char → List Char → Bool
  | [] => fun s => s.isEmpty
  | c :: ps => fun s =>
    if c = '*' then anyCharLoop (globSpec ps) s
    else
      match s with
      | [] => false
      | x :: xs => c == x && globSpec ps xs

/-- The amended glob semantics: as `globSpec`, except that a `*` only
stands for sequences containing no line terminator. -/
def globSpecJs : List Char → List Char → Bool
  | [] => fun s => s.isEmpty
  | c :: ps => fun s =>
    if c = '*' then starLoop (globSpecJs ps) s
    else
      match s with
      | [] => false
      | x :: xs => c == x && globSpecJs ps xs

/-- The statement of claim C1 for one configured tool: every field of the
three resolved policy records equals the value of the most specific layer
that sets it (tool layer, then the owning upstream's defaults, then the
global defaults), falling back to the built-in default. -/
def resolverHierarchyProp (cfg : ClipConfig) (qn : String)
    (u : UpstreamConfig) (tc : ToolConfig) : Prop :=
  ((resolveCompressionPolicy cfg qn).enabled =
    mostSpecific [tc.compression.bind (·.enabled),
      (u.defaults.bind (·.compression)).bind (·.enabled),
      cfg.defaults.compression.bind (·.enabled)]
      defaultCompressionPolicy.enabled) ∧
  ((resolveCompressionPolicy cfg qn).tokenThreshold =
    mostSpecific [tc.compression.bind (·.tokenThreshold),
      (u.defaults.bind (·.compression)).bind (·.tokenThreshold),
      cfg.defaults.compression.bind (·.tokenThreshold)]
      defaultCompressionPolicy.tokenThreshold) ∧
  ((resolveCompressionPolicy cfg qn).maxOutputTokens =
    mostSpecific [tc.compression.bind (·.maxOutputTokens),
      (u.defaults.bind (·.compression)).bind (·.maxOutputTokens),
      cfg.defaults.compression.bind (·.maxOutputTokens)]
      defaultCompressionPolicy.maxOutputTokens) ∧
  ((resolveCompressionPolicy cfg qn).customInstructions =
    mostSpecificSet [tc.compression.bind (·.customInstructions),
      (u.defaults.bind (·.compression)).bind (·.customInstructions),
      cfg.defaults.compression.bind (·.customInstructions)]) ∧
  ((resolveCompressionPolicy cfg qn).goalAware =
    mostSpecific [tc.compression.bind (·.goalAware),
      (u.defaults.bind (·.compression)).bind (·.goalAware),
      cfg.defaults.compression.bind (·.goalAware)]
      defaultCompressionPolicy.goalAware) ∧
  ((resolveMaskingPolicy cfg qn).enabled =
    mostSpecific [tc.masking.bind (·.enabled),
      (u.defaults.bind (·.masking)).bind (·.enabled),
      cfg.defaults.masking.bind (·.enabled)]
      defaultMaskingPolicy.enabled) ∧
  ((resolveMaskingPolicy cfg qn).piiTypes =
    mostSpecific [tc.masking.bind (·.piiTypes),
      (u.defaults.bind (·.masking)).bind (·.piiTypes),
      cfg.defaults.masking.bind (·.piiTypes)]
      defaultMaskingPolicy.piiTypes) ∧
  ((resolveMaskingPolicy cfg qn).llmFallback =
    mostSpecific [tc.masking.bind (·.llmFallback),
      (u.defaults.bind (·.masking)).bind (·.llmFallback),
      cfg.defaults.masking.bind (·.llmFallback)]
      defaultMaskingPolicy.llmFallback) ∧
  ((resolveMaskingPolicy cfg qn).llmFallbackThreshold =
    mostSpecific [tc.masking.bind (·.llmFallbackThreshold),
      (u.defaults.bind (·.masking)).bind (·.llmFallbackThreshold),
      cfg.defaults.masking.bind (·.llmFallbackThreshold)]
      defaultMaskingPolicy.llmFallbackThreshold) ∧
  ((resolveCachePolicy cfg qn).enabled =
    mostSpecific [tc.cache.bind (·.enabled),
      (u.defaults.bind (·.cache)).bind (·.enabled),
      cfg.defaults.cache.bind (·.enabled)]
      defaultCachePolicy.enabled) ∧
  ((resolveCachePolicy cfg qn).ttlSeconds =
    mostSpecific [tc.cache.bind (·.ttlSeconds),
      (u.defaults.bind (·.cache)).bind (·.ttlSeconds),
      cfg.defaults.cache.bind (·.ttlSeconds)]
      defaultCachePolicy.ttlSeconds)

/-- Tool-level compression override of the witness configuration
(scenario S2: tool override 5000). -/
def hierarchyTool : ToolConfig :=
  { compression := some { tokenThreshold := some 5000 } }

/-- Upstream of the witness configuration for the resolver hierarchy:
upstream default `tokenThreshold = 3000`, tool `fetch` overriding it. -/
def hierarchyUpstream : UpstreamConfig :=
  { id := "srv",
    defaults := some { compression := some { tokenThreshold := some 3000 } },
    tools := [("fetch", hierarchyTool), ("other", {})] }

/-- Witness configuration for the resolver hierarchy (scenario S2):
global `tokenThreshold = 1000`, upstream default 3000, tool override 5000. -/
def hierarchyCfg : ClipConfig :=
  { upstreams := [hierarchyUpstream],
    defaults := { compression := some { enabled := some true,
                                        tokenThreshold := some 1000,
                                        maxOutputTokens := some 500 } } }

/-- Upstream of the witness configuration for `piiTypes` replacement:
upstream-level `piiTypes`, one tool inheriting it and one overriding it. -/
def maskingUpstream : UpstreamConfig :=
  { id := "test",
    defaults := some { masking := some { piiTypes := some ["phone", "ssn"] } },
    tools := [("tool1", {}),
              ("tool2", { masking := some { piiTypes := some ["email"] } })] }

/-- Global masking defaults of the `piiTypes` replacement witness. -/
def maskingGlobalLayer : MaskingPolicyLayer :=
  { enabled := some true,
    piiTypes := some ["email", "credit_card", "ssn", "phone", "ip_address"],
    llmFallback := some false,
    llmFallbackThreshold := some .low }

/-- Witness configuration for `piiTypes` replacement: a global `piiTypes`
list that the upstream and tool layers replace wholesale. -/
def maskingCfg : ClipConfig :=
  { upstreams := [maskingUpstream],
    defaults := { masking := some maskingGlobalLayer } }

/-- Witness configuration for tool hiding (scenario S3): `srv__dangerous`
is marked hidden. -/
def hiddenCfg : ClipConfig :=
  { upstreams := [{ id := "srv",
                    tools := [("fetch", {}),
                              ("dangerous", { hidden := some true })] }] }

/-- Advertised catalog of the hidden-tool witness: the upstream `srv`
advertises both tools. -/
def hiddenAdv : List (String × List String) := [("srv", ["fetch", "dangerous"])]

/-- Witness configuration for parameter overrides (scenario S6): `api_key`
is hidden from the client and pinned to a fixed value. -/
def overrideCfg : ClipConfig :=
  { upstreams := [{ id := "srv",
                    tools := [("fetch",
                      { hideParameters := some ["api_key"],
                        parameterOverrides :=
                          some [("api_key", JsonVal.str "SECRET")] })] }] }

/-- Witness retry-escalation configuration (scenario S5 with a cap of 4). -/
def escalationRc : RetryEscalationConfig :=
  { enabled := true, windowSeconds := 60, tokenMultiplier := 2, cap := 4 }

/-- Witness cache holding one entry inserted at time 0 with a 10-second
TTL. -/
def sampleCache : Cache Nat :=
  [("key", { value := 5, insertedAt := 0, ttl := 10 })]

/-- Witness configuration for resolver queries on nonexistent tools. -/
def lonelyCfg : ClipConfig :=
  { upstreams := [{ id := "test", tools := [("mytool", {})] }] }


theorem compileGlob_cons (c : Char) (ps : List Char) :
    compileGlob (c :: ps) =
      (if c = '*' then GlobTok.dotStar else GlobTok.lit c) :: compileGlob ps :=
  rfl

theorem rxMatch_compileGlob (p : List Char) :
    ∀ s, rxMatch (compileGlob p) s = globSpecJs p s := by
  induction p with
  | nil => intro s; rfl
  | cons c ps ih =>
    intro s
    by_cases hc : c = '*'
    · subst hc
      rw [compileGlob_cons, if_pos rfl]
      show starLoop (rxMatch (compileGlob ps)) s = globSpecJs ('*' :: ps) s
      rw [funext ih]
      simp [globSpecJs]
    · rw [compileGlob_cons, if_neg hc]
      cases s with
      | nil => simp [rxMatch, globSpecJs, hc]
      | cons x xs => simp [rxMatch, globSpecJs, hc, ih xs]

theorem mostSpecific_three {α : Type} (a b c : Option α) (d : α) :
    mostSpecific [a, b, c] d = (a.or (b.or c)).getD d := by
  cases a <;> cases b <;> cases c <;> rfl

theorem mostSpecificSet_three {α : Type} (a b c : Option α) :
    mostSpecificSet [a, b, c] = a.or (b.or c) := by
  cases a <;> cases b <;> cases c <;> rfl

theorem lookup_append {α β : Type} [BEq α] (l₁ l₂ : List (α × β)) (k : α) :
    (l₁ ++ l₂).lookup k = (l₁.lookup k).or (l₂.lookup k) := by
  induction l₁ with
  | nil => simp [List.lookup]
  | cons p l ih =>
    obtain ⟨a, b⟩ := p
    cases h : k == a <;> simp [List.lookup, h, ih]

theorem lookup_filter_ne {α β : Type} [BEq α] [LawfulBEq α]
    (l : List (α × β)) (k : α) :
    (l.filter fun p => p.1 != k).lookup k = none := by
  induction l with
  | nil => simp
  | cons p l ih =>
    obtain ⟨a, b⟩ := p
    by_cases h : a = k
    · subst h
      simp [List.filter, ih]
    · have hne : (a != k) = true := by simp [bne, h]
      have hke : (k == a) = false := by simp [Ne.symm h]
      simp [List.filter, hne, List.lookup, hke, ih]

theorem globSpec_nostar (p : List Char) (h : ∀ c ∈ p, c ≠ '*') :
    ∀ s, globSpecJs p s = true ↔ p = s := by
  induction p with
  | nil =>
    intro s
    cases s <;> simp [globSpecJs]
  | cons c ps ih =>
    intro s
    have hc : c ≠ '*' := h c (List.mem_cons_self c ps)
    have hps : ∀ x ∈ ps, x ≠ '*' := fun x hx => h x (List.mem_cons_of_mem c hx)
    cases s with
    | nil => simp [globSpecJs, hc]
    | cons x xs =>
      simp [globSpecJs, hc, ih hps xs]

theorem runEscalation_streak (rc : RetryEscalationConfig) (t0 : Nat)
    (ts : List Nat) :
    ∀ (j ls : Nat), (∀ t ∈ ts, t - t0 ≤ rc.windowSeconds) →
      ∀ k, k < ts.length →
        (runEscalation rc (some ⟨j + 1, t0, ls⟩) ts)[k]? =
          some (min (rc.tokenMultiplier ^ (j + 1 + k)) rc.cap) := by
  induction ts with
  | nil =>
    intro j ls _ k hk
    simp at hk
  | cons t ts ih =>
    intro j ls h k hk
    have ht : t - t0 ≤ rc.windowSeconds := h t (List.mem_cons_self t ts)
    have hcond : ¬ (rc.windowSeconds < t - t0) := by omega
    have hstep : escalationStep rc (some ⟨j + 1, t0, ls⟩) t =
        (⟨j + 2, t0, t⟩, min (rc.tokenMultiplier ^ (j + 1)) rc.cap) := by
      simp [escalationStep, hcond]
    cases k with
    | zero => simp [runEscalation, hstep]
    | succ k =>
      have hrest : ∀ t₂ ∈ ts, t₂ - t0 ≤ rc.windowSeconds :=
        fun t₂ ht₂ => h t₂ (List.mem_cons_of_mem t ht₂)
      have hk₂ : k < ts.length := by simpa using hk
      have hind := ih (j + 1) t hrest k hk₂
      have harith : j + 1 + (k + 1) = j + 1 + 1 + k := by omega
      simp only [runEscalation, hstep, List.getElem?_cons_succ]
      rw [harith]
      exact hind

/-- C1: for every configured qualified tool name `qn` and every field of
the compression, masking and cache policy records, the resolved policy
value equals the value set by the most specific configuration layer that
sets the field, with precedence tool override > upstream defaults >
global defaults > built-in default. -/
theorem resolve_respects_hierarchy (cfg : ClipConfig) (qn : String)
    (u : UpstreamConfig) (tc : ToolConfig)
    (h : findUpstreamTool cfg qn = some (u, tc)) :
    resolverHierarchyProp cfg qn u tc := by
  have htc : findToolConfig cfg qn = some tc := by
    simp [findToolConfig, h]
  have hud : upstreamDefaultsFor cfg qn = u.defaults := by
    simp [upstreamDefaultsFor, h]
  unfold resolverHierarchyProp
  simp only [resolveCompressionPolicy, resolveMaskingPolicy, resolveCachePolicy,
    htc, hud, mostSpecific_three, mostSpecificSet_three, Option.some_bind]
  exact ⟨trivial, trivial, trivial, trivial, trivial, trivial, trivial,
    trivial, trivial, trivial, trivial⟩

/-- C1 witness: the three-level configuration (scenario S2) resolves
`srv__fetch` and satisfies the hierarchy property. -/
theorem resolve_respects_hierarchy_witness :
    findUpstreamTool hierarchyCfg "srv__fetch" =
      some (hierarchyUpstream, hierarchyTool) ∧
    resolverHierarchyProp hierarchyCfg "srv__fetch" hierarchyUpstream
      hierarchyTool :=
  ⟨by decide, resolve_respects_hierarchy hierarchyCfg "srv__fetch"
    hierarchyUpstream hierarchyTool (by decide)⟩

/-- C2: for a configured tool, if a layer more specific than the global
defaults sets `piiTypes` (the tool layer, else the owning upstream's
defaults), the resolved `piiTypes` equals exactly that layer's list —
never a union of the layers' lists. -/
theorem piiTypes_replaced (cfg : ClipConfig) (qn : String)
    (u : UpstreamConfig) (tc : ToolConfig) (ps : List String)
    (h : findUpstreamTool cfg qn = some (u, tc)) :
    (tc.masking.bind (·.piiTypes) = some ps →
      (resolveMaskingPolicy cfg qn).piiTypes = ps) ∧
    (tc.masking.bind (·.piiTypes) = none →
      (u.defaults.bind (·.masking)).bind (·.piiTypes) = some ps →
      (resolveMaskingPolicy cfg qn).piiTypes = ps) := by
  have htc : findToolConfig cfg qn = some tc := by
    simp [findToolConfig, h]
  have hud : upstreamDefaultsFor cfg qn = u.defaults := by
    simp [upstreamDefaultsFor, h]
  constructor
  · intro hts
    simp [resolveMaskingPolicy, htc, hud, hts]
  · intro htn hus
    simp [resolveMaskingPolicy, htc, hud, htn, hus]

/-- C2 witness: with the upstream layer setting `piiTypes = [phone, ssn]`
and the tool layer silent, the resolved list is exactly the upstream's,
not a union with the five-element global list. -/
theorem piiTypes_replaced_witness :
    (findUpstreamTool maskingCfg "test__tool1" =
      some (maskingUpstream, {})) ∧
    (({} : ToolConfig).masking.bind (·.piiTypes) = none) ∧
    ((maskingUpstream.defaults.bind (·.masking)).bind (·.piiTypes) =
      some ["phone", "ssn"]) ∧
    (resolveMaskingPolicy maskingCfg "test__tool1").piiTypes =
      ["phone", "ssn"] :=
  ⟨by decide, by decide, by decide,
   (piiTypes_replaced maskingCfg "test__tool1" maskingUpstream {}
     ["phone", "ssn"] (by decide)).2 (by decide) (by decide)⟩

/-- C3: a tool whose resolved `hidden` is true is absent from the catalog
returned by `listTools`, and a `tools/call` directed at it returns the
same tool-not-found result as a call to a name no upstream advertises. -/
theorem hidden_tool_invisible (cfg : ClipConfig)
    (adv : List (String × List String)) (qn qn₂ : String)
    (args : List (String × JsonVal))
    (h : isToolHidden cfg qn = true)
    (h₂ : (allAdvertised adv).contains qn₂ = false) :
    qn ∉ listTools cfg adv ∧
    callTool cfg adv qn args = CallResult.toolNotFound ∧
    callTool cfg adv qn₂ args = CallResult.toolNotFound := by
  refine ⟨?_, ?_, ?_⟩
  · intro hmem
    have hm := List.mem_filter.mp hmem
    simp [h] at hm
  · simp [callTool, h]
  · simp only [callTool]
    rw [if_neg]
    rw [h₂]
    simp

/-- C3 witness (scenario S3): `srv__dangerous` is hidden, missing from the
catalog, and calls to it and to the nonexistent `srv__missing` both return
tool-not-found. -/
theorem hidden_tool_invisible_witness :
    (isToolHidden hiddenCfg "srv__dangerous" = true) ∧
    ((allAdvertised hiddenAdv).contains "srv__missing" = false) ∧
    ("srv__dangerous" ∉ listTools hiddenCfg hiddenAdv ∧
     callTool hiddenCfg hiddenAdv "srv__dangerous" [] =
       CallResult.toolNotFound ∧
     callTool hiddenCfg hiddenAdv "srv__missing" [] =
       CallResult.toolNotFound) :=
  ⟨by decide, by decide,
   hidden_tool_invisible hiddenCfg hiddenAdv "srv__dangerous" "srv__missing"
     [] (by decide) (by decide)⟩

/-- C4: if `parameterOverrides` binds key `k` to value `v` for a tool, the
argument map forwarded to the upstream binds `k` to `v`, whatever the
client supplied for `k`. -/
theorem parameterOverride_wins (cfg : ClipConfig) (qn : String)
    (args : List (String × JsonVal)) (k : String) (v : JsonVal)
    (h : (getParameterOverrides cfg qn).lookup k = some v) :
    (applyParameterPolicy cfg qn args).lookup k = some v := by
  simp only [applyParameterPolicy]
  rw [lookup_append, h]
  rfl

/-- C4 witness (scenario S6): the client sends its own `api_key`, the
upstream still receives the configured `"SECRET"`. -/
theorem parameterOverride_wins_witness :
    ((getParameterOverrides overrideCfg "srv__fetch").lookup "api_key" =
      some (JsonVal.str "SECRET")) ∧
    ((applyParameterPolicy overrideCfg "srv__fetch"
        [("url", JsonVal.str "u"), ("api_key", JsonVal.str "CLIENT")]).lookup
      "api_key" = some (JsonVal.str "SECRET")) :=
  ⟨by decide,
   parameterOverride_wins overrideCfg "srv__fetch"
     [("url", JsonVal.str "u"), ("api_key", JsonVal.str "CLIENT")]
     "api_key" (JsonVal.str "SECRET") (by decide)⟩

/-- C5: with escalation configured (multiplier and cap at least 1), the
k-th call of a streak whose times all fall within `windowSeconds` of the
first carries escalation factor `min(tokenMultiplier^(k−1), cap)`; the
effective `maxOutputTokens` is the base times that factor and is
nondecreasing in k; a call more than `windowSeconds` after the streak's
`firstSeen` resets the count to 1 and the factor to 1; and
`tokenThreshold` is never multiplied. -/
theorem retryEscalation_spec (rc : RetryEscalationConfig) (t0 : Nat)
    (ts : List Nat)
    (hm : 1 ≤ rc.tokenMultiplier) (hcap : 1 ≤ rc.cap)
    (hwin : ∀ t ∈ ts, t - t0 ≤ rc.windowSeconds) :
    (∀ k, k < (t0 :: ts).length →
        (runEscalation rc none (t0 :: ts))[k]? =
          some (min (rc.tokenMultiplier ^ k) rc.cap)) ∧
    (∀ (p : ResolvedCompressionPolicy) (k : Nat),
        (applyEscalation p (min (rc.tokenMultiplier ^ k) rc.cap)).1 =
          (p.maxOutputTokens : ℚ) * min (rc.tokenMultiplier ^ k) rc.cap ∧
        (applyEscalation p (min (rc.tokenMultiplier ^ k) rc.cap)).1 ≤
          (applyEscalation p (min (rc.tokenMultiplier ^ (k + 1)) rc.cap)).1) ∧
    (∀ (e : EscalationEntry) (now : Nat),
        rc.windowSeconds < now - e.firstSeen →
        escalationStep rc (some e) now = (⟨1, now, now⟩, 1)) ∧
    (∀ (p : ResolvedCompressionPolicy) (f : ℚ),
        (applyEscalation p f).2 = p.tokenThreshold) := by
  refine ⟨?_, ?_, ?_, ?_⟩
  · intro k hk
    have hfirst : runEscalation rc none (t0 :: ts) =
        1 :: runEscalation rc (some ⟨1, t0, t0⟩) ts := by
      simp [runEscalation, escalationStep]
    cases k with
    | zero =>
      rw [hfirst]
      simp [min_eq_left hcap]
    | succ k =>
      rw [hfirst]
      have hk₂ : k < ts.length := by simpa using hk
      have hst := runEscalation_streak rc t0 ts 0 t0 hwin k hk₂
      rw [show (0 : Nat) + 1 + k = k + 1 by omega] at hst
      simpa using hst
  · intro p k
    refine ⟨rfl, ?_⟩
    have hpow : rc.tokenMultiplier ^ k ≤ rc.tokenMultiplier ^ (k + 1) := by
      calc rc.tokenMultiplier ^ k = rc.tokenMultiplier ^ k * 1 := by ring
        _ ≤ rc.tokenMultiplier ^ k * rc.tokenMultiplier :=
            mul_le_mul_of_nonneg_left hm
              (pow_nonneg (le_trans zero_le_one hm) k)
        _ = rc.tokenMultiplier ^ (k + 1) := by ring
    have hmin : min (rc.tokenMultiplier ^ k) rc.cap ≤
        min (rc.tokenMultiplier ^ (k + 1)) rc.cap :=
      min_le_min hpow (le_refl rc.cap)
    simpa [applyEscalation] using
      mul_le_mul_of_nonneg_left hmin (Nat.cast_nonneg p.maxOutputTokens)
  · intro e now hnow
    simp [escalationStep, hnow]
  · intro p f
    rfl

/-- C5 witness (scenario S5 with cap 4): calls at t = 0, 10, 20 inside the
60-second window; the third call's factor is `min(2², 4)`. -/
theorem retryEscalation_spec_witness :
    (1 ≤ escalationRc.tokenMultiplier) ∧ (1 ≤ escalationRc.cap) ∧
    (∀ t ∈ [10, 20], t - 0 ≤ escalationRc.windowSeconds) ∧
    (runEscalation escalationRc none [0, 10, 20])[2]? =
      some (min (escalationRc.tokenMultiplier ^ 2) escalationRc.cap) :=
  ⟨by norm_num [escalationRc], by norm_num [escalationRc], by decide,
   (retryEscalation_spec escalationRc 0 [10, 20]
     (by norm_num [escalationRc]) (by norm_num [escalationRc])
     (by decide)).1 2 (by decide)⟩

/-- C7: the cache never serves a stale entry: a lookup strictly after
`insertedAt + ttl` misses and deletes the entry, `getOrCompute` then
returns the freshly built value, and any value a lookup does return comes
from an entry whose TTL has not yet passed. -/
theorem cache_ttl_eviction {α : Type} (c : Cache α) (k : String)
    (e : CacheEntry α) (now ttl : Nat) (build : α)
    (h : c.lookup k = some e) :
    (e.insertedAt + e.ttl < now →
      (cacheLookup c k now).1 = none ∧
      (cacheLookup c k now).2.lookup k = none ∧
      (getOrCompute c k now ttl build).1 = build) ∧
    (∀ v, (cacheLookup c k now).1 = some v →
      now ≤ e.insertedAt + e.ttl ∧ v = e.value) := by
  constructor
  · intro hstale
    have hl : cacheLookup c k now = (none, c.filter fun p => p.1 != k) := by
      simp [cacheLookup, h, hstale]
    refine ⟨by rw [hl], ?_, ?_⟩
    · rw [hl]
      exact lookup_filter_ne c k
    · simp [getOrCompute, hl]
  · intro v hv
    by_cases hstale : e.insertedAt + e.ttl < now
    · have hl : cacheLookup c k now =
          (none, c.filter fun p => p.1 != k) := by
        simp [cacheLookup, h, hstale]
      rw [hl] at hv
      simp at hv
    · have hl : cacheLookup c k now = (some e.value, c) := by
        simp [cacheLookup, h, hstale]
      rw [hl] at hv
      simp only at hv
      exact ⟨by omega, (Option.some.inj hv).symm⟩

/-- C7 witness: the sample entry (inserted at 0, ttl 10) looked up at time
11 misses, is deleted, and `getOrCompute` returns the rebuilt value. -/
theorem cache_ttl_eviction_witness :
    (sampleCache.lookup "key" =
      some { value := 5, insertedAt := 0, ttl := 10 }) ∧
    (0 + 10 < 11) ∧
    ((cacheLookup sampleCache "key" 11).1 = none ∧
     (cacheLookup sampleCache "key" 11).2.lookup "key" = none ∧
     (getOrCompute sampleCache "key" 11 60 42).1 = 42) :=
  ⟨by decide, by decide,
   (cache_ttl_eviction sampleCache "key"
     { value := 5, insertedAt := 0, ttl := 10 } 11 60 42 (by decide)).1
     (by decide)⟩

/-- C8: resolver queries on a qualified name that no configured tool
matches return empty results (empty list, empty map, false) rather than
failing. -/
theorem resolver_nonexistent_queries (cfg : ClipConfig) (qn : String)
    (h : findUpstreamTool cfg qn = none) :
    getHiddenParameters cfg qn = [] ∧
    getParameterOverrides cfg qn = [] ∧
    isToolHidden cfg qn = false := by
  simp [getHiddenParameters, getParameterOverrides, isToolHidden,
    findToolConfig, h]

/-- C8 witness: `test__nonexistent` is not configured; all three queries
return empty or false. -/
theorem resolver_nonexistent_queries_witness :
    (findUpstreamTool lonelyCfg "test__nonexistent" = none) ∧
    (getHiddenParameters lonelyCfg "test__nonexistent" = [] ∧
     getParameterOverrides lonelyCfg "test__nonexistent" = [] ∧
     isToolHidden lonelyCfg "test__nonexistent" = false) :=
  ⟨by decide,
   resolver_nonexistent_queries lonelyCfg "test__nonexistent" (by decide)⟩

/-- C9 counterexample: on a fatal runtime error the CLI calls
`process.exit(1)` (src/cli.ts line 108), not 2 as the claim states. -/
theorem cliExitCode_fatal_not_two :
    cliExitCode CliOutcome.fatalError ≠ 2 := by
  decide

/-- C9 (amended): the CLI exits with code 0 on clean shutdown, code 1 on a
configuration error, and also code 1 — not 2 — on a fatal runtime error
(including a `proxy.start()` failure); no exit path uses code 2. -/
theorem cliExitCode_spec :
    cliExitCode CliOutcome.signalShutdown = 0 ∧
    cliExitCode CliOutcome.configError = 1 ∧
    cliExitCode CliOutcome.startError = 1 ∧
    cliExitCode CliOutcome.fatalError = 1 ∧
    ∀ o : CliOutcome, cliExitCode o ≠ 2 := by
  refine ⟨rfl, rfl, rfl, rfl, fun o => ?_⟩
  cases o <;> decide

/-- C10 counterexample: with pattern `a*b` and a name whose starred region
contains a newline, the claim's semantics (`*` matches any sequence of
characters) accepts, but `matchesGlob` rejects: the `.*` that the source
compiles `*` into does not match across ECMAScript line terminators. -/
theorem matchesGlob_newline_cex :
    globSpec "a*b".data "a\nb".data = true ∧
    matchesGlob "a\nb" "a*b" = false := by
  decide

/-- C10 (amended): `matchesGlob(name, pattern)` returns true exactly when
the whole name matches the pattern with each `*` standing for any
(possibly empty) sequence of characters none of which is a line terminator
and every other character standing for itself literally; in particular a
pattern containing no `*` matches exactly the string equal to the pattern.
Totality and determinism hold by construction (it is a Lean function). -/
theorem matchesGlob_semantics (name pattern : String) :
    (matchesGlob name pattern = globSpecJs pattern.data name.data) ∧
    ((∀ c ∈ pattern.data, c ≠ '*') →
      (matchesGlob name pattern = true ↔ name = pattern)) := by
  constructor
  · exact rxMatch_compileGlob pattern.data name.data
  · intro hns
    have h1 : matchesGlob name pattern = globSpecJs pattern.data name.data :=
      rxMatch_compileGlob pattern.data name.data
    rw [h1, globSpec_nostar pattern.data hns name.data]
    exact ⟨fun h => String.ext h.symm, fun h => by rw [h]⟩

/-- C10 witness: a star-free pattern matches exactly itself. -/
theorem matchesGlob_semantics_witness :
    (∀ c ∈ ("exact_match" : String).data, c ≠ '*') ∧
    (matchesGlob "exact_match" "exact_match" = true ↔
      ("exact_match" : String) = "exact_match") :=
  ⟨by decide,
   (matchesGlob_semantics "exact_match" "exact_match").2 (by decide)⟩
